import Mathlib

/-!
# Verification of the cobhan buffer codec (src/cobhan/src/lib.rs)

Shallow embedding of the Cobhan FFI buffer protocol.  A Cobhan buffer is a
caller-allocated region: a 32-bit signed length field at offset 0, a 32-bit
reserved field at offset 4, and a payload region at offset 8.  We model it as a
structure with those three components (the 8-byte header offset of the payload
region is represented by keeping the payload as its own field); a possibly-null
buffer pointer is `Option CBuffer`.  Machine `i32` values are modelled as `Int`
with explicit wrapping where the Rust code casts (`as i32`) or negates.

The filesystem is an association list from paths (byte lists) to file contents
(byte lists); reads take the first matching entry, `remove_file` drops every
entry at the path.  `NamedTempFile` creation is modelled by an oracle list of
paths the OS would hand out: an empty oracle models creation/write failure.

`str::from_utf8` is modelled by `isValidUtf8`, a byte-level validator with
exactly the ranges of the Rust core implementation; `fs::read_to_string` is a
read followed by that validation, any failure being an I/O error.
-/

/-- No Error (`ERR_NONE`). -/
def ERR_NONE : Int := 0

/-- One of the provided pointers is NULL / nil / 0 (`ERR_NULL_PTR`). -/
def ERR_NULL_PTR : Int := -1

/-- One of the provided buffer lengths is too large (`ERR_BUFFER_TOO_LARGE`). -/
def ERR_BUFFER_TOO_LARGE : Int := -2

/-- One of the provided buffers was too small (`ERR_BUFFER_TOO_SMALL`). -/
def ERR_BUFFER_TOO_SMALL : Int := -3

/-- Failed to decode a JSON buffer (`ERR_JSON_DECODE_FAILED`). -/
def ERR_JSON_DECODE_FAILED : Int := -5

/-- Failed to encode to JSON buffer (`ERR_JSON_ENCODE_FAILED`). -/
def ERR_JSON_ENCODE_FAILED : Int := -6

/-- UTF8 in a String or JSON is invalid (`ERR_INVALID_UTF8`). -/
def ERR_INVALID_UTF8 : Int := -7

/-- TempFile for large partial data failed to read (`ERR_READ_TEMP_FILE_FAILED`). -/
def ERR_READ_TEMP_FILE_FAILED : Int := -8

/-- TempFile for large partial data failed to write (`ERR_WRITE_TEMP_FILE_FAILED`). -/
def ERR_WRITE_TEMP_FILE_FAILED : Int := -9

/-- Sentinel of the fuelled encode model only: returned when the bounded
recursion depth is exhausted.  The real call graph never recurses more than
once (the guard in `bytes_to_temp` prevents a second spill), so with the fuel
used by the public definitions this value is unreachable; it is distinct from
every real error code so no theorem can rely on it by accident. -/
def FUEL_EXHAUSTED : Int := -1000

/-- Rust `usize → i32` cast (`as i32`): two's-complement wrap to 32 bits. -/
def toI32 (n : Nat) : Int :=
  if (n % 2 ^ 32 : Nat) < 2 ^ 31 then ((n % 2 ^ 32 : Nat) : Int)
  else ((n % 2 ^ 32 : Nat) : Int) - 2 ^ 32

/-- Wrapping of an `Int` into the `i32` range, for i32 arithmetic results. -/
def wrapI32 (z : Int) : Int := (z + 2 ^ 31) % 2 ^ 32 - 2 ^ 31

/-- A Cobhan buffer: 32-bit signed `length` field (bytes [0,4)), 32-bit
`reserved` field (bytes [4,8)), and the payload region (bytes [8,...)), whose
list length is the caller's payload allocation. -/
structure CBuffer where
  length : Int
  reserved : Int
  payload : List Nat
deriving DecidableEq

/-- Decidable equality of `Except` results, so concrete runs of the codec can
be checked by `decide`. -/
instance {ε α : Type} [DecidableEq ε] [DecidableEq α] : DecidableEq (Except ε α) := fun a b =>
  match a, b with
  | .error e, .error f =>
    match decEq e f with
    | isTrue h => isTrue (by rw [h])
    | isFalse h => isFalse (fun c => h (Except.error.inj c))
  | .ok x, .ok y =>
    match decEq x y with
    | isTrue h => isTrue (by rw [h])
    | isFalse h => isFalse (fun c => h (Except.ok.inj c))
  | .error _, .ok _ => isFalse (fun c => Except.noConfusion c)
  | .ok _, .error _ => isFalse (fun c => Except.noConfusion c)

/-- A file path, as its byte sequence. -/
abbrev FPath := List Nat

/-- The filesystem: an association list from paths to file contents.  Reads
take the first matching entry; writing prepends. -/
abbrev FileSystem := List (FPath × List Nat)

/-- `fs::read`: contents of the file at `p`, or `none` when absent. -/
def fsRead (fs : FileSystem) (p : FPath) : Option (List Nat) :=
  (fs.find? (fun e => decide (e.1 = p))).map (fun e => e.2)

/-- Creating/overwriting the file at `p` with `data`. -/
def fsWrite (fs : FileSystem) (p : FPath) (data : List Nat) : FileSystem :=
  (p, data) :: fs

/-- `fs::remove_file`: drop every entry at path `p`. -/
def fsRemove (fs : FileSystem) (p : FPath) : FileSystem :=
  fs.filter (fun e => decide (e.1 ≠ p))

/-- Is `b` a UTF-8 continuation byte (`0x80..=0xBF`)? -/
def utf8Cont (b : Nat) : Bool := 0x80 ≤ b && b ≤ 0xBF

/-- Rust `str::from_utf8` validation, byte-level: exactly the accepting ranges
of `core::str::validations::run_utf8_validation`. -/
def isValidUtf8 : List Nat → Bool
  | [] => true
  | b :: rest =>
    if b ≤ 0x7F then isValidUtf8 rest
    else if 0xC2 ≤ b && b ≤ 0xDF then
      match rest with
      | b1 :: rest2 => utf8Cont b1 && isValidUtf8 rest2
      | [] => false
    else if b == 0xE0 then
      match rest with
      | b1 :: b2 :: rest3 =>
        (0xA0 ≤ b1 && b1 ≤ 0xBF) && utf8Cont b2 && isValidUtf8 rest3
      | _ => false
    else if (0xE1 ≤ b && b ≤ 0xEC) || (0xEE ≤ b && b ≤ 0xEF) then
      match rest with
      | b1 :: b2 :: rest3 => utf8Cont b1 && utf8Cont b2 && isValidUtf8 rest3
      | _ => false
    else if b == 0xED then
      match rest with
      | b1 :: b2 :: rest3 =>
        (0x80 ≤ b1 && b1 ≤ 0x9F) && utf8Cont b2 && isValidUtf8 rest3
      | _ => false
    else if b == 0xF0 then
      match rest with
      | b1 :: b2 :: b3 :: rest4 =>
        (0x90 ≤ b1 && b1 ≤ 0xBF) && utf8Cont b2 && utf8Cont b3 && isValidUtf8 rest4
      | _ => false
    else if 0xF1 ≤ b && b ≤ 0xF3 then
      match rest with
      | b1 :: b2 :: b3 :: rest4 =>
        utf8Cont b1 && utf8Cont b2 && utf8Cont b3 && isValidUtf8 rest4
      | _ => false
    else if b == 0xF4 then
      match rest with
      | b1 :: b2 :: b3 :: rest4 =>
        (0x80 ≤ b1 && b1 ≤ 0x8F) && utf8Cont b2 && utf8Cont b3 && isValidUtf8 rest4
      | _ => false
    else false

/-- `fs::read_to_string`: read the file and validate its contents as UTF-8;
both a missing file and invalid UTF-8 contents are I/O errors (`none`).  The
string is represented by its byte sequence. -/
def readToString (fs : FileSystem) (p : FPath) : Option (List Nat) :=
  match fsRead fs p with
  | some data => if isValidUtf8 data then some data else none
  | none => none

/-- `temp_to_vector`: interpret the first `|length|` payload bytes as a UTF-8
file path and read that file. -/
def temp_to_vector (payload : List Nat) (length : Int) (fs : FileSystem) :
    Except Int (List Nat) :=
  if isValidUtf8 (payload.take (0 - length).toNat) then
    match fsRead fs (payload.take (0 - length).toNat) with
    | some data => .ok data
    | none => .error ERR_READ_TEMP_FILE_FAILED
  else .error ERR_INVALID_UTF8

/-- `temp_to_string`: as `temp_to_vector` but via `fs::read_to_string`, so the
file contents are additionally validated as UTF-8, any failure of the read
(including invalid contents) being `ERR_READ_TEMP_FILE_FAILED`. -/
def temp_to_string (payload : List Nat) (length : Int) (fs : FileSystem) :
    Except Int (List Nat) :=
  if isValidUtf8 (payload.take (0 - length).toNat) then
    match readToString fs (payload.take (0 - length).toNat) with
    | some data => .ok data
    | none => .error ERR_READ_TEMP_FILE_FAILED
  else .error ERR_INVALID_UTF8

/-- `cbuffer_to_vector`: decode a buffer to raw bytes.  Null pointer fails;
negative length dispatches to the temp-file path; otherwise the first `length`
payload bytes are copied out. -/
def cbuffer_to_vector (buffer : Option CBuffer) (fs : FileSystem) :
    Except Int (List Nat) :=
  match buffer with
  | none => .error ERR_NULL_PTR
  | some b =>
    if b.length < 0 then temp_to_vector b.payload b.length fs
    else .ok (b.payload.take b.length.toNat)

/-- `cbuffer_to_string`: decode a buffer to a UTF-8 string (represented by its
bytes).  The inline path validates the payload bytes (`ERR_INVALID_UTF8` on
failure); the temp path uses `temp_to_string`. -/
def cbuffer_to_string (buffer : Option CBuffer) (fs : FileSystem) :
    Except Int (List Nat) :=
  match buffer with
  | none => .error ERR_NULL_PTR
  | some b =>
    if b.length < 0 then temp_to_string b.payload b.length fs
    else
      if isValidUtf8 (b.payload.take b.length.toNat) then .ok (b.payload.take b.length.toNat)
      else .error ERR_INVALID_UTF8

/-- `cbuffer_to_hashmap_json`: obtain the byte sequence by the same
length-sign dispatch as `cbuffer_to_vector`, then hand it to the external JSON
parser (modelled as a parameter `parse`), `ERR_JSON_DECODE_FAILED` when the
parser rejects. -/
def cbuffer_to_hashmap_json {J : Type} (parse : List Nat → Option J)
    (buffer : Option CBuffer) (fs : FileSystem) : Except Int J :=
  match buffer with
  | none => .error ERR_NULL_PTR
  | some b =>
    match (if 0 ≤ b.length then .ok (b.payload.take b.length.toNat)
      else temp_to_vector b.payload b.length fs : Except Int (List Nat)) with
    | .error e => .error e
    | .ok bs =>
      match parse bs with
      | some v => .ok v
      | none => .error ERR_JSON_DECODE_FAILED

/-- `write_new_file`: create a uniquely named temp file holding `bytes` and
return its path.  The external `NamedTempFile` collaborator is modelled by the
oracle `tmpPaths`: the next path the OS would allocate is its head, and an
empty oracle models failure of creation, write, keep, or path-to-string
conversion (`ERR_WRITE_TEMP_FILE_FAILED`). -/
def write_new_file (bytes : List Nat) (tmpPaths : List FPath) (fs : FileSystem) :
    Except Int (FPath × List FPath × FileSystem) :=
  match tmpPaths with
  | [] => .error ERR_WRITE_TEMP_FILE_FAILED
  | p :: rest => .ok (p, rest, fsWrite fs p bytes)

/-- `bytes_to_cbuffer` (fuelled): encode `bytes` into the destination buffer.
Null fails; capacity (the pre-call length field) `≤ 0` fails
`ERR_BUFFER_TOO_SMALL`; data larger than capacity spills via `bytes_to_temp`,
whose body (source lines 327-367) is inlined in the spill branch so that the
`bytes_to_temp → string_to_cbuffer → bytes_to_cbuffer` recursion of the
source is structural on the fuel; otherwise the bytes are copied to the start
of the payload region and the length field is overwritten with the byte
count.  `bytes_to_temp_fuel` below restates the inlined branch as the named
helper of the source, and `bytes_to_cbuffer_fuel_spill` proves the two
agree.  The spill branch: write the bytes to a new temp file; if the path's
byte length exceeds the original buffer capacity, delete the file and fail
`ERR_BUFFER_TOO_SMALL` (this raw comparison, not a recursive encode, avoids a
second spill); otherwise store the path string in the buffer via the ordinary
encode on the path's bytes, deleting the file if that unexpectedly fails, and
finally overwrite the length field with the negation of the path's byte
length. -/
def bytes_to_cbuffer_fuel :
    Nat → List Nat → Option CBuffer → List FPath → FileSystem →
    Int × Option CBuffer × FileSystem
  | fuel, bytes, buffer, tmpPaths, fs =>
    match buffer with
    | none => (ERR_NULL_PTR, none, fs)
    | some b =>
      let buffer_cap := b.length
      if buffer_cap ≤ 0 then (ERR_BUFFER_TOO_SMALL, some b, fs)
      else
        let bytes_len := bytes.length
        if buffer_cap < toI32 bytes_len then
          match fuel with
          | 0 => (FUEL_EXHAUSTED, some b, fs)
          | fuel' + 1 =>
            match write_new_file bytes tmpPaths fs with
            | .error r => (r, some b, fs)
            | .ok (tmp_file_path, rest, fs1) =>
              let tmp_file_path_len := toI32 tmp_file_path.length
              if b.length < tmp_file_path_len then
                (ERR_BUFFER_TOO_SMALL, some b, fsRemove fs1 tmp_file_path)
              else
                match bytes_to_cbuffer_fuel fuel' tmp_file_path (some b) rest fs1 with
                | (result, b2, fs2) =>
                  if result ≠ ERR_NONE then (result, b2, fsRemove fs2 tmp_file_path)
                  else
                    match b2 with
                    | some b2' =>
                      (result,
                       some { b2' with length := wrapI32 (0 - tmp_file_path_len) },
                       fs2)
                    | none => (result, none, fs2)
        else
          (ERR_NONE,
           some { b with
                  length := toI32 bytes_len,
                  payload := bytes ++ b.payload.drop bytes_len },
           fs)

/-- `bytes_to_temp` (fuelled), stated as the named helper of the source; its
body is exactly the spill branch of `bytes_to_cbuffer_fuel`. -/
def bytes_to_temp_fuel (fuel : Nat) (bytes : List Nat) (b : CBuffer)
    (tmpPaths : List FPath) (fs : FileSystem) :
    Int × Option CBuffer × FileSystem :=
  match write_new_file bytes tmpPaths fs with
  | .error r => (r, some b, fs)
  | .ok (tmp_file_path, rest, fs1) =>
    let tmp_file_path_len := toI32 tmp_file_path.length
    if b.length < tmp_file_path_len then
      (ERR_BUFFER_TOO_SMALL, some b, fsRemove fs1 tmp_file_path)
    else
      match bytes_to_cbuffer_fuel fuel tmp_file_path (some b) rest fs1 with
      | (result, b2, fs2) =>
        if result ≠ ERR_NONE then (result, b2, fsRemove fs2 tmp_file_path)
        else
          match b2 with
          | some b2' =>
            (result,
             some { b2' with length := wrapI32 (0 - tmp_file_path_len) },
             fs2)
          | none => (result, none, fs2)

/-- `bytes_to_cbuffer`, public: fuel 1 is exact, since the only recursive call
(storing the spill path) is guarded by the raw fit check and never spills
again. -/
def bytes_to_cbuffer (bytes : List Nat) (buffer : Option CBuffer)
    (tmpPaths : List FPath) (fs : FileSystem) :
    Int × Option CBuffer × FileSystem :=
  bytes_to_cbuffer_fuel 1 bytes buffer tmpPaths fs

/-- `string_to_cbuffer`: encode a string (its UTF-8 bytes) via
`bytes_to_cbuffer`. -/
def string_to_cbuffer (s : List Nat) (buffer : Option CBuffer)
    (tmpPaths : List FPath) (fs : FileSystem) :
    Int × Option CBuffer × FileSystem :=
  bytes_to_cbuffer s buffer tmpPaths fs

/-- `hashmap_json_to_cbuffer`: serialize the JSON document with the external
serializer (parameter `serialize`), then encode the bytes;
`ERR_JSON_ENCODE_FAILED` when serialization itself fails, before any buffer
interaction. -/
def hashmap_json_to_cbuffer {J : Type} (serialize : J → Option (List Nat))
    (json : J) (buffer : Option CBuffer) (tmpPaths : List FPath)
    (fs : FileSystem) : Int × Option CBuffer × FileSystem :=
  match serialize json with
  | some json_bytes => bytes_to_cbuffer json_bytes buffer tmpPaths fs
  | none => (ERR_JSON_ENCODE_FAILED, buffer, fs)

/-! ## Helper lemmas -/

theorem toI32_of_lt {n : Nat} (h : n < 2 ^ 31) : toI32 n = (n : Int) := by
  unfold toI32
  have h32 : n < 2 ^ 32 := by omega
  rw [Nat.mod_eq_of_lt h32, if_pos h]

theorem wrapI32_of {z : Int} (h1 : -2 ^ 31 ≤ z) (h2 : z < 2 ^ 31) : wrapI32 z = z := by
  unfold wrapI32
  rw [Int.emod_eq_of_lt (by omega) (by omega)]
  omega

theorem fsRead_fsWrite_self (fs : FileSystem) (p : FPath) (d : List Nat) :
    fsRead (fsWrite fs p d) p = some d := by
  unfold fsRead fsWrite
  rw [List.find?_cons_of_pos _ (by simp)]
  rfl

theorem fsRead_fsWrite_other (fs : FileSystem) (p q : FPath) (d : List Nat)
    (h : q ≠ p) : fsRead (fsWrite fs p d) q = fsRead fs q := by
  unfold fsRead fsWrite
  rw [List.find?_cons_of_neg _ (by simp; exact fun hh => h hh.symm)]

theorem fsRead_fsRemove_self (fs : FileSystem) (p : FPath) :
    fsRead (fsRemove fs p) p = none := by
  unfold fsRemove
  induction fs with
  | nil => rfl
  | cons e fs ih =>
    rw [List.filter_cons]
    by_cases he : e.1 = p
    · rw [if_neg (by simp [he])]
      exact ih
    · rw [if_pos (by simp [he])]
      unfold fsRead
      rw [List.find?_cons_of_neg _ (by simp [he])]
      exact ih

theorem fsRead_fsRemove_other (fs : FileSystem) (p q : FPath) (h : q ≠ p) :
    fsRead (fsRemove fs p) q = fsRead fs q := by
  unfold fsRemove
  induction fs with
  | nil => rfl
  | cons e fs ih =>
    rw [List.filter_cons]
    by_cases he : e.1 = p
    · rw [if_neg (by simp [he])]
      rw [ih]
      unfold fsRead
      rw [List.find?_cons_of_neg _ (by simp [he]; exact fun hh => h hh.symm)]
    · rw [if_pos (by simp [he])]
      unfold fsRead
      by_cases heq : e.1 = q
      · rw [List.find?_cons_of_pos _ (by simp [heq]),
           List.find?_cons_of_pos _ (by simp [heq])]
      · rw [List.find?_cons_of_neg _ (by simp [heq]),
           List.find?_cons_of_neg _ (by simp [heq])]
        exact ih

/-- The spill branch of `bytes_to_cbuffer_fuel` is exactly `bytes_to_temp_fuel`
(the inlining preserved the source's `bytes_to_temp` helper). -/
theorem bytes_to_cbuffer_fuel_spill (fuel : Nat) (bytes : List Nat) (b : CBuffer)
    (tmpPaths : List FPath) (fs : FileSystem)
    (hcap : ¬ b.length ≤ 0) (hspill : b.length < toI32 bytes.length) :
    bytes_to_cbuffer_fuel (fuel + 1) bytes (some b) tmpPaths fs =
      bytes_to_temp_fuel fuel bytes b tmpPaths fs := by
  rw [bytes_to_cbuffer_fuel]
  simp only [if_neg hcap, if_pos hspill]
  rfl

/-- Inline (non-spill) encode: with positive capacity at least the byte
count, `bytes_to_cbuffer` copies the bytes to the front of the payload region
and overwrites the length field with the byte count, touching no file. -/
theorem encode_inline_eq (bytes : List Nat) (b : CBuffer)
    (tmpPaths : List FPath) (fs : FileSystem)
    (hcap : 0 < b.length) (hcap31 : b.length < 2 ^ 31)
    (hfits : (bytes.length : Int) ≤ b.length) :
    bytes_to_cbuffer bytes (some b) tmpPaths fs =
      (ERR_NONE,
       some { b with length := (bytes.length : Int),
                     payload := bytes ++ b.payload.drop bytes.length },
       fs) := by
  have hb31 : bytes.length < 2 ^ 31 := by exact_mod_cast hfits.trans_lt hcap31
  unfold bytes_to_cbuffer
  rw [bytes_to_cbuffer_fuel]
  simp only [toI32_of_lt hb31]
  rw [if_neg (by omega), if_neg (by omega)]

/-- Successful spill encode: with positive capacity smaller than the byte
count and a fresh temp path that fits, the bytes land in a new file at that
path, the path's bytes land at the front of the payload region, and the
length field becomes the negated path byte length. -/
theorem encode_spill_eq (bytes : List Nat) (b : CBuffer) (p : FPath)
    (rest : List FPath) (fs : FileSystem)
    (hcap : 0 < b.length) (hcap31 : b.length < 2 ^ 31)
    (hbig : b.length < (bytes.length : Int)) (hbytes31 : bytes.length < 2 ^ 31)
    (hpfits : (p.length : Int) ≤ b.length) :
    bytes_to_cbuffer bytes (some b) (p :: rest) fs =
      (ERR_NONE,
       some { b with length := -(p.length : Int),
                     payload := p ++ b.payload.drop p.length },
       fsWrite fs p bytes) := by
  have hp31 : p.length < 2 ^ 31 := by exact_mod_cast hpfits.trans_lt hcap31
  unfold bytes_to_cbuffer
  rw [bytes_to_cbuffer_fuel]
  simp only [toI32_of_lt hbytes31]
  rw [if_neg (by omega), if_pos hbig]
  show (match write_new_file bytes (p :: rest) fs with
    | .error r => (r, some b, fs)
    | .ok (tmp_file_path, rest2, fs1) =>
      let tmp_file_path_len := toI32 tmp_file_path.length
      if b.length < tmp_file_path_len then
        (ERR_BUFFER_TOO_SMALL, some b, fsRemove fs1 tmp_file_path)
      else
        match bytes_to_cbuffer_fuel 0 tmp_file_path (some b) rest2 fs1 with
        | (result, b2, fs2) =>
          if result ≠ ERR_NONE then (result, b2, fsRemove fs2 tmp_file_path)
          else
            match b2 with
            | some b2' =>
              (result,
               some { b2' with length := wrapI32 (0 - tmp_file_path_len) },
               fs2)
            | none => (result, none, fs2)) = _
  rw [show write_new_file bytes (p :: rest) fs = .ok (p, rest, fsWrite fs p bytes) from rfl]
  simp only []
  rw [toI32_of_lt hp31, if_neg (by omega)]
  rw [show bytes_to_cbuffer_fuel 0 p (some b) rest (fsWrite fs p bytes) =
      (ERR_NONE,
       some { b with length := toI32 p.length,
                     payload := p ++ b.payload.drop p.length },
       fsWrite fs p bytes) from by
    rw [bytes_to_cbuffer_fuel]
    simp only [toI32_of_lt hp31]
    rw [if_neg (by omega), if_neg (by omega)]]
  simp only [ne_eq, not_true_eq_false, if_false, ite_self]
  rw [wrapI32_of (by omega) (by omega), zero_sub]

/-- Failed spill encode: when the fresh temp path's byte length exceeds the
original capacity, the encode fails `ERR_BUFFER_TOO_SMALL`, the buffer is
untouched, and the just-written temp file is removed again. -/
theorem encode_spill_too_long_eq (bytes : List Nat) (b : CBuffer) (p : FPath)
    (rest : List FPath) (fs : FileSystem)
    (hcap : 0 < b.length)
    (hbig : b.length < (bytes.length : Int)) (hbytes31 : bytes.length < 2 ^ 31)
    (hp31 : p.length < 2 ^ 31) (hplong : b.length < (p.length : Int)) :
    bytes_to_cbuffer bytes (some b) (p :: rest) fs =
      (ERR_BUFFER_TOO_SMALL, some b, fsRemove (fsWrite fs p bytes) p) := by
  unfold bytes_to_cbuffer
  rw [bytes_to_cbuffer_fuel]
  simp only [toI32_of_lt hbytes31]
  rw [if_neg (by omega), if_pos hbig]
  show (match write_new_file bytes (p :: rest) fs with
    | .error r => (r, some b, fs)
    | .ok (tmp_file_path, rest2, fs1) =>
      let tmp_file_path_len := toI32 tmp_file_path.length
      if b.length < tmp_file_path_len then
        (ERR_BUFFER_TOO_SMALL, some b, fsRemove fs1 tmp_file_path)
      else
        match bytes_to_cbuffer_fuel 0 tmp_file_path (some b) rest2 fs1 with
        | (result, b2, fs2) =>
          if result ≠ ERR_NONE then (result, b2, fsRemove fs2 tmp_file_path)
          else
            match b2 with
            | some b2' =>
              (result,
               some { b2' with length := wrapI32 (0 - tmp_file_path_len) },
               fs2)
            | none => (result, none, fs2)) = _
  rw [show write_new_file bytes (p :: rest) fs = .ok (p, rest, fsWrite fs p bytes) from rfl]
  simp only []
  rw [toI32_of_lt hp31, if_pos hplong]

/-- C1: for every byte sequence strictly shorter than the destination
buffer's capacity, encoding with `bytes_to_cbuffer` and then decoding the
same buffer with `cbuffer_to_vector` returns the identical byte sequence, and
after the encode the buffer's length field holds exactly the byte count. -/
theorem C1_roundtrip_inline (bytes : List Nat) (b : CBuffer)
    (tmpPaths : List FPath) (fs : FileSystem)
    (hcap : 0 < b.length) (hcap31 : b.length < 2 ^ 31)
    (hshort : (bytes.length : Int) < b.length) :
    ∃ b' : CBuffer,
      bytes_to_cbuffer bytes (some b) tmpPaths fs = (ERR_NONE, some b', fs) ∧
      b'.length = (bytes.length : Int) ∧
      cbuffer_to_vector (some b') fs = .ok bytes := by
  refine ⟨_, encode_inline_eq bytes b tmpPaths fs hcap hcap31 (le_of_lt hshort), rfl, ?_⟩
  show (if ((bytes.length : Int)) < 0 then
      temp_to_vector (bytes ++ b.payload.drop bytes.length) (bytes.length : Int) fs
    else .ok ((bytes ++ b.payload.drop bytes.length).take ((bytes.length : Int)).toNat))
    = .ok bytes
  rw [if_neg (by exact not_lt.mpr (Int.natCast_nonneg _))]
  simp only [Int.toNat_natCast]
  rw [List.take_left]

/-- Witness for C1 at bytes `[1, 2]`, capacity 5. -/
theorem C1_witness :
    ((0 : Int) < 5 ∧ (5 : Int) < 2 ^ 31 ∧ ((([1, 2] : List Nat).length : Nat) : Int) < 5) ∧
    ∃ b' : CBuffer,
      bytes_to_cbuffer [1, 2] (some ⟨5, 9, [7, 7, 7, 7, 7]⟩) [] [] = (ERR_NONE, some b', []) ∧
      b'.length = ((([1, 2] : List Nat).length : Nat) : Int) ∧
      cbuffer_to_vector (some b') [] = .ok [1, 2] :=
  ⟨⟨by norm_num, by norm_num, by norm_num⟩,
   C1_roundtrip_inline [1, 2] ⟨5, 9, [7, 7, 7, 7, 7]⟩ [] []
     (by norm_num) (by norm_num) (by norm_num)⟩

/-- C8: every byte sequence whose length is at most the destination buffer's
positive capacity is stored inline by `bytes_to_cbuffer`: the bytes are
copied into the payload region (which starts at the fixed 8-byte header
offset, here the `payload` field), the length field is overwritten with the
exact byte count, and no spill happens (the filesystem is returned
unchanged); in particular data whose length equals the capacity exactly is
stored inline. -/
theorem C8_inline_fit_stores_exact (bytes : List Nat) (b : CBuffer)
    (tmpPaths : List FPath) (fs : FileSystem)
    (hcap : 0 < b.length) (hcap31 : b.length < 2 ^ 31)
    (hfits : (bytes.length : Int) ≤ b.length) :
    bytes_to_cbuffer bytes (some b) tmpPaths fs =
      (ERR_NONE,
       some { b with length := (bytes.length : Int),
                     payload := bytes ++ b.payload.drop bytes.length },
       fs) :=
  encode_inline_eq bytes b tmpPaths fs hcap hcap31 hfits

/-- Witness for C8 at the boundary case: 3 bytes into capacity exactly 3. -/
theorem C8_witness :
    ((0 : Int) < 3 ∧ (3 : Int) < 2 ^ 31 ∧ ((([1, 2, 3] : List Nat).length : Nat) : Int) ≤ 3) ∧
    bytes_to_cbuffer [1, 2, 3] (some ⟨3, 5, [0, 0, 0]⟩) [] [] =
      (ERR_NONE, some ⟨3, 5, [1, 2, 3]⟩, []) :=
  ⟨⟨by norm_num, by norm_num, by norm_num⟩,
   by
    rw [C8_inline_fit_stores_exact [1, 2, 3] ⟨3, 5, [0, 0, 0]⟩ [] []
      (by norm_num) (by norm_num) (by norm_num)]
    rfl⟩

/-- C2: for every byte sequence longer than the destination buffer's positive
capacity whose fresh temp path fits in the buffer, `bytes_to_cbuffer`
succeeds, the length field becomes strictly negative with absolute value the
byte length of the temp path stored in the payload region, the data is in the
temp file, and `cbuffer_to_vector` on the resulting buffer reproduces the
original byte sequence by reading it back from that file. -/
theorem C2_spill_roundtrip (bytes : List Nat) (b : CBuffer) (p : FPath)
    (rest : List FPath) (fs : FileSystem)
    (hcap : 0 < b.length) (hcap31 : b.length < 2 ^ 31)
    (hbig : b.length < (bytes.length : Int)) (hbytes31 : bytes.length < 2 ^ 31)
    (hputf8 : isValidUtf8 p = true) (hppos : 0 < p.length)
    (hpfits : (p.length : Int) ≤ b.length) :
    ∃ b' : CBuffer,
      bytes_to_cbuffer bytes (some b) (p :: rest) fs =
        (ERR_NONE, some b', fsWrite fs p bytes) ∧
      b'.length = -(p.length : Int) ∧ b'.length < 0 ∧
      b'.payload.take p.length = p ∧
      fsRead (fsWrite fs p bytes) p = some bytes ∧
      cbuffer_to_vector (some b') (fsWrite fs p bytes) = .ok bytes := by
  have htake : (p ++ b.payload.drop p.length).take p.length = p := List.take_left p _
  refine ⟨_, encode_spill_eq bytes b p rest fs hcap hcap31 hbig hbytes31 hpfits,
    rfl, by show -(p.length : Int) < 0; omega, htake, fsRead_fsWrite_self fs p bytes, ?_⟩
  show (if -(p.length : Int) < 0 then
      temp_to_vector (p ++ b.payload.drop p.length) (-(p.length : Int)) (fsWrite fs p bytes)
    else .ok ((p ++ b.payload.drop p.length).take (-(p.length : Int)).toNat))
    = .ok bytes
  rw [if_pos (by omega)]
  show (if isValidUtf8 ((p ++ b.payload.drop p.length).take (0 - -(p.length : Int)).toNat)
    then
      match fsRead (fsWrite fs p bytes)
          ((p ++ b.payload.drop p.length).take (0 - -(p.length : Int)).toNat) with
      | some data => .ok data
      | none => .error ERR_READ_TEMP_FILE_FAILED
    else .error ERR_INVALID_UTF8) = Except.ok bytes
  have hzn : ((0 : Int) - -(p.length : Int)).toNat = p.length := by omega
  rw [hzn, htake, if_pos hputf8, fsRead_fsWrite_self]

/-- Witness for C2: 6 bytes into capacity 2 via temp path `[47, 116]`. -/
theorem C2_witness :
    ((0 : Int) < 2 ∧ (2 : Int) < 2 ^ 31 ∧ (2 : Int) < (([1, 2, 3, 4, 5, 6] : List Nat).length : Int) ∧
     ([1, 2, 3, 4, 5, 6] : List Nat).length < 2 ^ 31 ∧
     isValidUtf8 [47, 116] = true ∧ 0 < ([47, 116] : FPath).length ∧
     ((([47, 116] : FPath).length : Nat) : Int) ≤ 2) ∧
    ∃ b' : CBuffer,
      bytes_to_cbuffer [1, 2, 3, 4, 5, 6] (some ⟨2, 0, [9, 9]⟩) [[47, 116]] [] =
        (ERR_NONE, some b', fsWrite [] [47, 116] [1, 2, 3, 4, 5, 6]) ∧
      b'.length = -((([47, 116] : FPath).length : Nat) : Int) ∧ b'.length < 0 ∧
      b'.payload.take ([47, 116] : FPath).length = [47, 116] ∧
      fsRead (fsWrite [] [47, 116] [1, 2, 3, 4, 5, 6]) [47, 116] = some [1, 2, 3, 4, 5, 6] ∧
      cbuffer_to_vector (some b') (fsWrite [] [47, 116] [1, 2, 3, 4, 5, 6]) =
        .ok [1, 2, 3, 4, 5, 6] :=
  ⟨⟨by norm_num, by norm_num, by norm_num, by norm_num, by decide, by decide, by norm_num⟩,
   C2_spill_roundtrip [1, 2, 3, 4, 5, 6] ⟨2, 0, [9, 9]⟩ [47, 116] [] []
     (by norm_num) (by norm_num) (by norm_num) (by norm_num) (by decide) (by decide) (by norm_num)⟩

/-- C3: when the byte sequence spills but the fresh temp path's byte length
exceeds the original buffer capacity (its pre-mutation length field), the
encode returns `ERR_BUFFER_TOO_SMALL` with the buffer untouched, the temp
file written during the spill is deleted again before returning, and the
final filesystem holds no file at the temp path while every other path is
exactly as before: no orphaned temp file remains. -/
theorem C3_spill_path_too_long (bytes : List Nat) (b : CBuffer) (p : FPath)
    (rest : List FPath) (fs : FileSystem)
    (hcap : 0 < b.length)
    (hbig : b.length < (bytes.length : Int)) (hbytes31 : bytes.length < 2 ^ 31)
    (hp31 : p.length < 2 ^ 31) (hplong : b.length < (p.length : Int)) :
    bytes_to_cbuffer bytes (some b) (p :: rest) fs =
      (ERR_BUFFER_TOO_SMALL, some b, fsRemove (fsWrite fs p bytes) p) ∧
    fsRead (fsRemove (fsWrite fs p bytes) p) p = none ∧
    ∀ q : FPath, q ≠ p →
      fsRead (fsRemove (fsWrite fs p bytes) p) q = fsRead fs q := by
  refine ⟨encode_spill_too_long_eq bytes b p rest fs hcap hbig hbytes31 hp31 hplong,
    fsRead_fsRemove_self _ p, fun q hq => ?_⟩
  rw [fsRead_fsRemove_other _ p q hq, fsRead_fsWrite_other fs p q bytes hq]

/-- Witness for C3: 6 bytes into capacity 1, temp path `[47, 116]` of length
2 does not fit. -/
theorem C3_witness :
    ((0 : Int) < 1 ∧ (1 : Int) < (([1, 2, 3, 4, 5, 6] : List Nat).length : Int) ∧
     ([1, 2, 3, 4, 5, 6] : List Nat).length < 2 ^ 31 ∧
     ([47, 116] : FPath).length < 2 ^ 31 ∧ (1 : Int) < ((([47, 116] : FPath).length : Nat) : Int)) ∧
    (bytes_to_cbuffer [1, 2, 3, 4, 5, 6] (some ⟨1, 0, [9]⟩) [[47, 116]] [] =
      (ERR_BUFFER_TOO_SMALL, some ⟨1, 0, [9]⟩, fsRemove (fsWrite [] [47, 116] [1, 2, 3, 4, 5, 6]) [47, 116]) ∧
    fsRead (fsRemove (fsWrite [] [47, 116] [1, 2, 3, 4, 5, 6]) [47, 116]) [47, 116] = none ∧
    ∀ q : FPath, q ≠ [47, 116] →
      fsRead (fsRemove (fsWrite [] [47, 116] [1, 2, 3, 4, 5, 6]) [47, 116]) q = fsRead [] q) :=
  ⟨⟨by norm_num, by norm_num, by norm_num, by norm_num, by norm_num⟩,
   C3_spill_path_too_long [1, 2, 3, 4, 5, 6] ⟨1, 0, [9]⟩ [47, 116] [] []
     (by norm_num) (by norm_num) (by norm_num) (by norm_num) (by norm_num)⟩

/-- C4: every operation of the codec given a null buffer pointer (`none`)
returns `ERR_NULL_PTR`; no buffer exists to be read or written and the
filesystem is returned unchanged by the encodes.  For the JSON encode this
holds whenever the external serializer succeeds (serialization runs before
the null check in the source; for a `HashMap<String, Value>` serde_json
serialization does not fail). -/
theorem C4_null_pointer {J : Type} (parse : List Nat → Option J)
    (serialize : J → Option (List Nat)) (j : J) (jb : List Nat)
    (bytes s : List Nat) (tmpPaths : List FPath) (fs : FileSystem)
    (hser : serialize j = some jb) :
    cbuffer_to_vector none fs = .error ERR_NULL_PTR ∧
    cbuffer_to_string none fs = .error ERR_NULL_PTR ∧
    cbuffer_to_hashmap_json parse none fs = .error ERR_NULL_PTR ∧
    bytes_to_cbuffer bytes none tmpPaths fs = (ERR_NULL_PTR, none, fs) ∧
    string_to_cbuffer s none tmpPaths fs = (ERR_NULL_PTR, none, fs) ∧
    hashmap_json_to_cbuffer serialize j none tmpPaths fs = (ERR_NULL_PTR, none, fs) := by
  refine ⟨rfl, rfl, rfl, rfl, rfl, ?_⟩
  unfold hashmap_json_to_cbuffer
  rw [hser]
  rfl

/-- Witness for C4, with the one-point parser/serializer on `Unit`. -/
theorem C4_witness :
    (fun _ : Unit => some ([] : List Nat)) () = some ([] : List Nat) ∧
    (cbuffer_to_vector none [] = .error ERR_NULL_PTR ∧
     cbuffer_to_string none [] = .error ERR_NULL_PTR ∧
     cbuffer_to_hashmap_json (fun _ => some ()) none [] = .error ERR_NULL_PTR ∧
     bytes_to_cbuffer [] none [] [] = (ERR_NULL_PTR, none, []) ∧
     string_to_cbuffer [] none [] [] = (ERR_NULL_PTR, none, []) ∧
     hashmap_json_to_cbuffer (fun _ => some []) () none [] [] = (ERR_NULL_PTR, none, [])) :=
  ⟨rfl, C4_null_pointer (fun _ => some ()) (fun _ => some []) () [] [] [] [] [] rfl⟩

/-- C6: a destination buffer whose length field is 0 or negative before an
encode call is rejected with `ERR_BUFFER_TOO_SMALL` by every encode
operation, for every payload including the empty one; the buffer and the
filesystem are untouched. -/
theorem C6_nonpositive_capacity_rejected (b : CBuffer) (hcap : b.length ≤ 0) :
    (∀ (bytes : List Nat) (tmpPaths : List FPath) (fs : FileSystem),
      bytes_to_cbuffer bytes (some b) tmpPaths fs = (ERR_BUFFER_TOO_SMALL, some b, fs)) ∧
    (∀ (s : List Nat) (tmpPaths : List FPath) (fs : FileSystem),
      string_to_cbuffer s (some b) tmpPaths fs = (ERR_BUFFER_TOO_SMALL, some b, fs)) ∧
    (∀ (J : Type) (serialize : J → Option (List Nat)) (j : J) (jb : List Nat)
      (tmpPaths : List FPath) (fs : FileSystem), serialize j = some jb →
      hashmap_json_to_cbuffer serialize j (some b) tmpPaths fs =
        (ERR_BUFFER_TOO_SMALL, some b, fs)) := by
  have hbase : ∀ (bytes : List Nat) (tmpPaths : List FPath) (fs : FileSystem),
      bytes_to_cbuffer bytes (some b) tmpPaths fs = (ERR_BUFFER_TOO_SMALL, some b, fs) := by
    intro bytes tmpPaths fs
    unfold bytes_to_cbuffer
    rw [bytes_to_cbuffer_fuel]
    rw [if_pos hcap]
  refine ⟨hbase, fun s => hbase s, fun J serialize j jb tmpPaths fs hser => ?_⟩
  unfold hashmap_json_to_cbuffer
  rw [hser]
  exact hbase jb tmpPaths fs

/-- Witness for C6 at capacity 0 and a nonempty payload. -/
theorem C6_witness :
    ((0 : Int) ≤ 0) ∧
    bytes_to_cbuffer [1] (some ⟨0, 3, []⟩) [] [] = (ERR_BUFFER_TOO_SMALL, some ⟨0, 3, []⟩, []) :=
  ⟨le_refl 0, (C6_nonpositive_capacity_rejected ⟨0, 3, []⟩ (le_refl 0)).1 [1] [] []⟩

/-- C7: JSON decode obtains its bytes by exactly the raw-bytes decode
(`cbuffer_to_vector`) dispatch on the length sign, and returns
`ERR_JSON_DECODE_FAILED` only when the bytes were obtained and the parser
rejected them; when obtaining the bytes fails, that earlier error
(`ERR_NULL_PTR`, `ERR_INVALID_UTF8` or `ERR_READ_TEMP_FILE_FAILED`) is
returned, taking priority over `ERR_JSON_DECODE_FAILED`. -/
theorem C7_json_error_priority {J : Type} (parse : List Nat → Option J)
    (buffer : Option CBuffer) (fs : FileSystem) :
    cbuffer_to_hashmap_json parse buffer fs =
      match cbuffer_to_vector buffer fs with
      | .error e => .error e
      | .ok bs =>
        match parse bs with
        | some v => .ok v
        | none => .error ERR_JSON_DECODE_FAILED := by
  cases buffer with
  | none => rfl
  | some b =>
    show (match (if 0 ≤ b.length then Except.ok (b.payload.take b.length.toNat)
          else temp_to_vector b.payload b.length fs : Except Int (List Nat)) with
      | Except.error e => (Except.error e : Except Int J)
      | Except.ok bs =>
        match parse bs with
        | some v => Except.ok v
        | none => Except.error ERR_JSON_DECODE_FAILED) =
      match (if b.length < 0 then temp_to_vector b.payload b.length fs
          else Except.ok (b.payload.take b.length.toNat) : Except Int (List Nat)) with
      | Except.error e => (Except.error e : Except Int J)
      | Except.ok bs =>
        match parse bs with
        | some v => Except.ok v
        | none => Except.error ERR_JSON_DECODE_FAILED
    by_cases hneg : b.length < 0
    · rw [if_neg (by omega : ¬ (0 : Int) ≤ b.length), if_pos hneg]
    · rw [if_pos (by omega : (0 : Int) ≤ b.length), if_neg hneg]

/-- C10: every decode operation ignores the reserved field at buffer bytes
[4,8): its result is invariant under any change of that field (and, the
decodes being pure functions of the buffer that return only a value, none of
them writes to the buffer at all, so the field is also left untouched). -/
theorem C10_decode_ignores_reserved (b : CBuffer) (r : Int) (fs : FileSystem) :
    cbuffer_to_vector (some { b with reserved := r }) fs =
      cbuffer_to_vector (some b) fs ∧
    cbuffer_to_string (some { b with reserved := r }) fs =
      cbuffer_to_string (some b) fs ∧
    ∀ (J : Type) (parse : List Nat → Option J),
      cbuffer_to_hashmap_json parse (some { b with reserved := r }) fs =
        cbuffer_to_hashmap_json parse (some b) fs :=
  ⟨rfl, rfl, fun _ _ => rfl⟩

/-- `temp_to_string` is `temp_to_vector` followed by UTF-8 validation of the
file contents, whose failure surfaces as `ERR_READ_TEMP_FILE_FAILED` (the
invalid-contents case is an I/O error of `fs::read_to_string`). -/
theorem temp_string_vs_vector (payload : List Nat) (length : Int)
    (fs : FileSystem) :
    temp_to_string payload length fs =
      match temp_to_vector payload length fs with
      | Except.error e => Except.error e
      | Except.ok bs =>
        if isValidUtf8 bs then Except.ok bs
        else Except.error ERR_READ_TEMP_FILE_FAILED := by
  unfold temp_to_string temp_to_vector readToString
  by_cases hname : isValidUtf8 (payload.take (0 - length).toNat)
  · rw [if_pos hname, if_pos hname]
    cases hread : fsRead fs (payload.take (0 - length).toNat) with
    | none => rfl
    | some d =>
      by_cases hd : isValidUtf8 d
      · simp [hd]
      · simp [hd]
  · rw [if_neg hname, if_neg hname]

/-- C5 counterexample: a spilled buffer (length field −1, payload the path
`[116]`) whose temp file holds the single byte 0xFF: that byte source fails
UTF-8 validation, yet `cbuffer_to_string` returns
`ERR_READ_TEMP_FILE_FAILED`, not `ERR_INVALID_UTF8` as the claim states. -/
theorem C5_counterexample :
    isValidUtf8 [255] = false ∧
    cbuffer_to_vector (some ⟨-1, 0, [116]⟩) [([116], [255])] = .ok [255] ∧
    cbuffer_to_string (some ⟨-1, 0, [116]⟩) [([116], [255])] =
      .error ERR_READ_TEMP_FILE_FAILED ∧
    cbuffer_to_string (some ⟨-1, 0, [116]⟩) [([116], [255])] ≠
      .error ERR_INVALID_UTF8 := by
  refine ⟨by decide, by decide, by decide, by decide⟩

/-- C5 (amended): the string decode behaves like the raw-bytes decode with
UTF-8 validation layered on the selected byte source, and invalid UTF-8 is
never replaced or truncated but always rejected — with `ERR_INVALID_UTF8`
when the source is the inline payload (or the spill path bytes), but with
`ERR_READ_TEMP_FILE_FAILED` when the source is the contents of a spilled
temp file, because `fs::read_to_string` folds that validation into the read
as an I/O error. -/
theorem C5_string_decode_utf8 (b : CBuffer) (fs : FileSystem) :
    cbuffer_to_string (some b) fs =
      match cbuffer_to_vector (some b) fs with
      | Except.error e => Except.error e
      | Except.ok bs =>
        if isValidUtf8 bs then Except.ok bs
        else Except.error
          (if b.length < 0 then ERR_READ_TEMP_FILE_FAILED
           else ERR_INVALID_UTF8) := by
  show (if b.length < 0 then temp_to_string b.payload b.length fs
      else if isValidUtf8 (b.payload.take b.length.toNat)
        then Except.ok (b.payload.take b.length.toNat)
        else Except.error ERR_INVALID_UTF8) =
    match (if b.length < 0 then temp_to_vector b.payload b.length fs
        else Except.ok (b.payload.take b.length.toNat) : Except Int (List Nat)) with
    | Except.error e => (Except.error e : Except Int (List Nat))
    | Except.ok bs =>
      if isValidUtf8 bs then Except.ok bs
      else Except.error
        (if b.length < 0 then ERR_READ_TEMP_FILE_FAILED
         else ERR_INVALID_UTF8)
  by_cases hneg : b.length < 0
  · rw [if_pos hneg, if_pos hneg, if_pos hneg, temp_string_vs_vector]
  · rw [if_neg hneg, if_neg hneg, if_neg hneg]

theorem temp_to_vector_ne_too_large (payload : List Nat) (length : Int)
    (fs : FileSystem) :
    temp_to_vector payload length fs ≠ .error ERR_BUFFER_TOO_LARGE := by
  unfold temp_to_vector
  by_cases hname : isValidUtf8 (payload.take (0 - length).toNat)
  · rw [if_pos hname]
    cases hread : fsRead fs (payload.take (0 - length).toNat) with
    | none => decide
    | some d => simp
  · rw [if_neg hname]
    decide

theorem temp_to_string_ne_too_large (payload : List Nat) (length : Int)
    (fs : FileSystem) :
    temp_to_string payload length fs ≠ .error ERR_BUFFER_TOO_LARGE := by
  rw [temp_string_vs_vector]
  cases htv : temp_to_vector payload length fs with
  | error e =>
    have := temp_to_vector_ne_too_large payload length fs
    rw [htv] at this
    simpa using this
  | ok bs =>
    by_cases hbs : isValidUtf8 bs
    · simp [hbs]
    · simp [hbs]
      decide
  
theorem bytes_to_cbuffer_fuel_ne_too_large (fuel : Nat) :
    ∀ (bytes : List Nat) (buffer : Option CBuffer) (tmpPaths : List FPath)
      (fs : FileSystem),
      (bytes_to_cbuffer_fuel fuel bytes buffer tmpPaths fs).1 ≠
        ERR_BUFFER_TOO_LARGE := by
  induction fuel with
  | zero =>
    intro bytes buffer tmpPaths fs
    cases buffer with
    | none => exact (by decide : ERR_NULL_PTR ≠ ERR_BUFFER_TOO_LARGE)
    | some b =>
      rw [bytes_to_cbuffer_fuel]
      by_cases hcap : b.length ≤ 0
      · rw [if_pos hcap]
        exact (by decide : ERR_BUFFER_TOO_SMALL ≠ ERR_BUFFER_TOO_LARGE)
      · rw [if_neg hcap]
        by_cases hspill : b.length < toI32 bytes.length
        · rw [if_pos hspill]
          exact (by decide : FUEL_EXHAUSTED ≠ ERR_BUFFER_TOO_LARGE)
        · rw [if_neg hspill]
          exact (by decide : ERR_NONE ≠ ERR_BUFFER_TOO_LARGE)
  | succ fuel ih =>
    intro bytes buffer tmpPaths fs
    cases buffer with
    | none => exact (by decide : ERR_NULL_PTR ≠ ERR_BUFFER_TOO_LARGE)
    | some b =>
      rw [bytes_to_cbuffer_fuel]
      by_cases hcap : b.length ≤ 0
      · rw [if_pos hcap]
        exact (by decide : ERR_BUFFER_TOO_SMALL ≠ ERR_BUFFER_TOO_LARGE)
      · rw [if_neg hcap]
        by_cases hspill : b.length < toI32 bytes.length
        · rw [if_pos hspill]
          cases tmpPaths with
          | nil =>
            exact (by decide : ERR_WRITE_TEMP_FILE_FAILED ≠ ERR_BUFFER_TOO_LARGE)
          | cons p rest =>
            show (if b.length < toI32 p.length then
                (ERR_BUFFER_TOO_SMALL, some b, fsRemove (fsWrite fs p bytes) p)
              else
                match bytes_to_cbuffer_fuel fuel p (some b) rest (fsWrite fs p bytes) with
                | (result, b2, fs2) =>
                  if result ≠ ERR_NONE then (result, b2, fsRemove fs2 p)
                  else
                    match b2 with
                    | some b2' =>
                      (result,
                       some { b2' with length := wrapI32 (0 - toI32 p.length) },
                       fs2)
                    | none => (result, none, fs2)).1 ≠ ERR_BUFFER_TOO_LARGE
            by_cases hfit : b.length < toI32 p.length
            · rw [if_pos hfit]
              exact (by decide : ERR_BUFFER_TOO_SMALL ≠ ERR_BUFFER_TOO_LARGE)
            · rw [if_neg hfit]
              have hres := ih p (some b) rest (fsWrite fs p bytes)
              rcases hr : bytes_to_cbuffer_fuel fuel p (some b) rest (fsWrite fs p bytes)
                with ⟨result, b2, fs2⟩
              rw [hr] at hres
              by_cases hrn : result = ERR_NONE
              · subst hrn
                cases b2 with
                | some b2' => simp [ERR_NONE, ERR_BUFFER_TOO_LARGE]
                | none => simp [ERR_NONE, ERR_BUFFER_TOO_LARGE]
              · simp only [ne_eq, hrn, not_false_eq_true, if_true]
                exact hres
        · rw [if_neg hspill]
          exact (by decide : ERR_NONE ≠ ERR_BUFFER_TOO_LARGE)

/-- The raw-bytes decode never yields `ERR_BUFFER_TOO_LARGE`. -/
theorem cbuffer_to_vector_ne_too_large (buffer : Option CBuffer)
    (fs : FileSystem) :
    cbuffer_to_vector buffer fs ≠ .error ERR_BUFFER_TOO_LARGE := by
  cases buffer with
  | none => exact fun h => absurd (Except.error.inj h) (by decide)
  | some b =>
    show (if b.length < 0 then temp_to_vector b.payload b.length fs
      else .ok (b.payload.take b.length.toNat)) ≠ _
    by_cases hneg : b.length < 0
    · rw [if_pos hneg]
      exact temp_to_vector_ne_too_large _ _ _
    · rw [if_neg hneg]
      simp

/-- C9 counterexample: `ERR_BUFFER_TOO_LARGE` is declared but no bound is
enforced: a buffer declaring the largest representable length,
`2 ^ 31 - 1 = 2147483647`, which exceeds any sane bound on a payload, decodes
successfully instead of failing with `ERR_BUFFER_TOO_LARGE`, and likewise an
encode into a buffer declaring that capacity succeeds. -/
theorem C9_counterexample :
    (2147483647 : Int) = 2 ^ 31 - 1 ∧
    cbuffer_to_vector (some ⟨2147483647, 0, []⟩) [] = .ok [] ∧
    cbuffer_to_vector (some ⟨2147483647, 0, []⟩) [] ≠ .error ERR_BUFFER_TOO_LARGE ∧
    (bytes_to_cbuffer [7] (some ⟨2147483647, 0, [0]⟩) [] []).1 = ERR_NONE ∧
    (bytes_to_cbuffer [7] (some ⟨2147483647, 0, [0]⟩) [] []).1 ≠ ERR_BUFFER_TOO_LARGE := by
  refine ⟨by decide, by decide, by decide, by decide, by decide⟩

/-- C9 (amended): the constant `ERR_BUFFER_TOO_LARGE` (−2) is defined but
never returned: no decode or encode operation of the codec yields it for any
input whatsoever, so no "sane bound" on declared or implied lengths is
enforced anywhere. -/
theorem C9_no_buffer_too_large :
    (∀ (buffer : Option CBuffer) (fs : FileSystem),
      cbuffer_to_vector buffer fs ≠ .error ERR_BUFFER_TOO_LARGE) ∧
    (∀ (buffer : Option CBuffer) (fs : FileSystem),
      cbuffer_to_string buffer fs ≠ .error ERR_BUFFER_TOO_LARGE) ∧
    (∀ (J : Type) (parse : List Nat → Option J) (buffer : Option CBuffer)
      (fs : FileSystem),
      cbuffer_to_hashmap_json parse buffer fs ≠ .error ERR_BUFFER_TOO_LARGE) ∧
    (∀ (bytes : List Nat) (buffer : Option CBuffer) (tmpPaths : List FPath)
      (fs : FileSystem),
      (bytes_to_cbuffer bytes buffer tmpPaths fs).1 ≠ ERR_BUFFER_TOO_LARGE) ∧
    (∀ (s : List Nat) (buffer : Option CBuffer) (tmpPaths : List FPath)
      (fs : FileSystem),
      (string_to_cbuffer s buffer tmpPaths fs).1 ≠ ERR_BUFFER_TOO_LARGE) ∧
    (∀ (J : Type) (serialize : J → Option (List Nat)) (j : J)
      (buffer : Option CBuffer) (tmpPaths : List FPath) (fs : FileSystem),
      (hashmap_json_to_cbuffer serialize j buffer tmpPaths fs).1 ≠
        ERR_BUFFER_TOO_LARGE) := by
  have henc : ∀ (bytes : List Nat) (buffer : Option CBuffer)
      (tmpPaths : List FPath) (fs : FileSystem),
      (bytes_to_cbuffer bytes buffer tmpPaths fs).1 ≠ ERR_BUFFER_TOO_LARGE :=
    fun bytes buffer tmpPaths fs =>
      bytes_to_cbuffer_fuel_ne_too_large 1 bytes buffer tmpPaths fs
  refine ⟨cbuffer_to_vector_ne_too_large, ?_, ?_, henc, fun s => henc s, ?_⟩
  · intro buffer fs
    cases buffer with
    | none => exact fun h => absurd (Except.error.inj h) (by decide)
    | some b =>
      show (if b.length < 0 then temp_to_string b.payload b.length fs
        else if isValidUtf8 (b.payload.take b.length.toNat)
          then Except.ok (b.payload.take b.length.toNat)
          else Except.error ERR_INVALID_UTF8) ≠ _
      by_cases hneg : b.length < 0
      · rw [if_pos hneg]
        exact temp_to_string_ne_too_large _ _ _
      · rw [if_neg hneg]
        by_cases hv : isValidUtf8 (b.payload.take b.length.toNat)
        · rw [if_pos hv]; simp
        · rw [if_neg hv]
          exact fun h => absurd (Except.error.inj h) (by decide)
  · intro J parse buffer fs
    cases buffer with
    | none => exact fun h => absurd (Except.error.inj h) (by decide)
    | some b =>
      show (match (if 0 ≤ b.length then Except.ok (b.payload.take b.length.toNat)
          else temp_to_vector b.payload b.length fs : Except Int (List Nat)) with
        | Except.error e => (Except.error e : Except Int J)
        | Except.ok bs =>
          match parse bs with
          | some v => Except.ok v
          | none => Except.error ERR_JSON_DECODE_FAILED) ≠
        Except.error ERR_BUFFER_TOO_LARGE
      by_cases hneg : 0 ≤ b.length
      · rw [if_pos hneg]
        cases hp : parse (b.payload.take b.length.toNat) with
        | some v => simp [hp]
        | none => simp [hp, ERR_JSON_DECODE_FAILED, ERR_BUFFER_TOO_LARGE]
      · rw [if_neg hneg]
        cases htv : temp_to_vector b.payload b.length fs with
        | error e =>
          have hte := temp_to_vector_ne_too_large b.payload b.length fs
          rw [htv] at hte
          simpa using hte
        | ok bs =>
          cases hp : parse bs with
          | some v => simp [hp]
          | none => simp [hp, ERR_JSON_DECODE_FAILED, ERR_BUFFER_TOO_LARGE]
  · intro J serialize j buffer tmpPaths fs
    unfold hashmap_json_to_cbuffer
    cases hser : serialize j with
    | some jb => exact henc jb buffer tmpPaths fs
    | none => exact (by decide : ERR_JSON_ENCODE_FAILED ≠ ERR_BUFFER_TOO_LARGE)
